import Mathlib

/-!
Shallow embedding of the MERN_practice backend (Express + Mongoose handlers)
for verification of its natural-language specification.

Source files embedded here:
- src/unnamed/part_000      : POST /users registration handler
- src/server/middleware/auth.js : x-auth-token verification middleware
- src/server/routes/profile.js  : profile CRUD and experience/education routes

JavaScript-level behaviour that the claims depend on (Array.prototype.splice
with a negative index, Array.prototype.indexOf returning -1, String.split,
String.trim, truthiness of values in `if (field)` guards, JSON serialization
dropping function-valued object fields) is modelled explicitly below.
-/

set_option autoImplicit false

namespace Mern

/- ### JSON / JavaScript values -/

/-- JavaScript value as it appears in a response body handed to `res.json`.
`jfun` models a function value (as in the uncalled method reference
`errors.array` on the add-experience and add-education routes). -/
inductive JSValue where
  | jnull
  | jstr (s : String)
  | jnum (n : Int)
  | jbool (b : Bool)
  | jarr (xs : List JSValue)
  | jobj (fields : List (String × JSValue))
  | jfun
deriving Repr

/-- Whether a JavaScript value is a function value. -/
def JSValue.isFun : JSValue → Bool
  | .jfun => true
  | _ => false

/-- Serialization of the top-level response object performed by `res.json`
(JSON.stringify): an object field whose value is a function is dropped.
The response objects built by the embedded handlers never nest a function
below the top level, so only the top level needs this treatment. -/
def stringifyTopObj (fields : List (String × JSValue)) : List (String × JSValue) :=
  fields.filter (fun f => !f.2.isFun)

/-- An HTTP response: status code plus the object passed to `res.json`,
kept as the list of fields of the top-level JSON object. -/
structure Response where
  status : Nat
  body : List (String × JSValue)
deriving Repr

/-- A field-level validation error as produced by express-validator:
`errors.array()` yields objects carrying at least `msg` and `param`. -/
structure ValidationError where
  msg : String
  param : String
deriving Repr, DecidableEq

/-- JSON rendering of one express-validator error object. -/
def ValidationError.toJson (e : ValidationError) : JSValue :=
  .jobj [("msg", .jstr e.msg), ("param", .jstr e.param)]

/- ### JavaScript array and string helpers -/

/-- JavaScript `Array.prototype.indexOf`: index of the first occurrence,
or -1 when the element does not occur. -/
def jsIndexOf : List String → String → Int
  | [], _ => -1
  | a :: rest, x =>
    if a = x then 0
    else
      let r := jsIndexOf rest x
      if r = -1 then -1 else r + 1

/-- JavaScript `arr.splice(start, 1)` restricted to its effect on the array:
a negative `start` counts from the end (clamped at 0), a `start` at or past
the length removes nothing, otherwise the single element at `start` is
removed. In particular `splice(-1, 1)` removes the LAST element. -/
def jsSpliceDeleteOne {α : Type} (xs : List α) (start : Int) : List α :=
  let len : Int := Int.ofNat xs.length
  let actualStart : Int := if start < 0 then max (len + start) 0 else min start len
  let s : Nat := actualStart.toNat
  xs.take s ++ xs.drop (s + 1)

/-- JavaScript `Array.prototype.unshift`: insert at the front. -/
def jsUnshift {α : Type} (xs : List α) (x : α) : List α :=
  x :: xs

/-- Whitespace as stripped by JavaScript `String.prototype.trim` (the
characters that occur in this codebase's inputs). -/
def isJsWhitespace (c : Char) : Bool :=
  c = ' ' || c = '\t' || c = '\n' || c = '\r'

/-- Drop the leading characters satisfying `p`. -/
def dropLeading (p : Char → Bool) : List Char → List Char
  | [] => []
  | c :: cs => if p c then dropLeading p cs else c :: cs

/-- JavaScript `String.prototype.trim`: strip whitespace from both ends. -/
def jsTrim (s : String) : String :=
  String.mk (List.reverse (dropLeading isJsWhitespace
    (List.reverse (dropLeading isJsWhitespace s.toList))))

/-- Split a character list on a separator character; the separator is
dropped and empty pieces are kept, as JavaScript `split` does. -/
def splitCharList (sep : Char) : List Char → List (List Char)
  | [] => [[]]
  | c :: cs =>
    let rest := splitCharList sep cs
    if c = sep then [] :: rest
    else
      match rest with
      | [] => [[c]]
      | g :: gs => (c :: g) :: gs

/-- JavaScript `s.split(",")`: the list of comma-separated pieces of `s`,
in order, empty pieces preserved. -/
def jsSplitOnComma (s : String) : List String :=
  (splitCharList ',' s.toList).map String.mk

/-- JavaScript truthiness of an optional string request field, as tested by
the `if (field)` guards of the create-or-update profile handler: absent
(`undefined`) and the empty string are falsy. -/
def truthy : Option String → Bool
  | none => false
  | some s => s ≠ ""

/-- Removal of the first element satisfying the predicate; the list is
unchanged when no element matches. This is the effect of Mongoose
`findOneAndRemove` on the stored collection. -/
def removeFirst {α : Type} (p : α → Bool) : List α → List α
  | [] => []
  | a :: rest => if p a then rest else a :: removeFirst p rest

/- ### Profile data model (src/server/models, as used by the routes) -/

/-- One experience entry of a profile. The system-assigned sub-entity
identifier `id` is the string form of the entry's `_id`. -/
structure Experience where
  id : String
  title : String
  company : String
  location : Option String
  fromDate : Option String
  toDate : Option String
  current : Option Bool
  description : Option String
deriving Repr, DecidableEq

/-- One education entry of a profile, with its sub-entity identifier. -/
structure Education where
  id : String
  school : String
  degree : String
  fieldOfStudy : Option String
  fromDate : Option String
  toDate : Option String
  current : Option Bool
  description : Option String
deriving Repr, DecidableEq

/-- The `social` sub-record of a profile: links keyed by platform name. -/
structure Social where
  youtube : Option String
  twitter : Option String
  facebook : Option String
  linkedin : Option String
  instagram : Option String
deriving Repr, DecidableEq

/-- The empty social sub-record, `profileFields.social = {}`. -/
def Social.empty : Social :=
  { youtube := none, twitter := none, facebook := none,
    linkedin := none, instagram := none }

/-- A persisted Profile document. `user` is the owning user id. -/
structure ProfileDoc where
  user : String
  company : Option String
  website : Option String
  location : Option String
  bio : Option String
  status : Option String
  githubusername : Option String
  skills : Option (List String)
  social : Social
  experience : List Experience
  education : List Education
deriving Repr, DecidableEq

/-- The body of a POST /profile request, as destructured by the handler.
Every field is optional: `none` models an absent (`undefined`) field. -/
structure ProfileBody where
  company : Option String
  location : Option String
  website : Option String
  bio : Option String
  skills : Option String
  status : Option String
  githubusername : Option String
  youtube : Option String
  twitter : Option String
  instagram : Option String
  linkedin : Option String
  facebook : Option String
deriving Repr, DecidableEq

/-- A request body with every field absent. -/
def ProfileBody.empty : ProfileBody :=
  { company := none, location := none, website := none, bio := none,
    skills := none, status := none, githubusername := none, youtube := none,
    twitter := none, instagram := none, linkedin := none, facebook := none }

/-- The partial-update document `profileFields` built by POST /profile:
a top-level field is present exactly when the corresponding body field is
truthy, while `social` is ALWAYS present (the handler unconditionally runs
`profileFields.social = ...` before filling in the supplied links). -/
structure ProfileFields where
  user : String
  company : Option String
  website : Option String
  location : Option String
  bio : Option String
  status : Option String
  githubusername : Option String
  skills : Option (List String)
  social : Social
deriving Repr, DecidableEq

/-- Line-by-line embedding of the `profileFields` construction of
POST /profile (src/server/routes/profile.js lines 72-90), including the
split-and-trim treatment of `skills`. -/
def buildProfileFields (userId : String) (b : ProfileBody) : ProfileFields :=
  { user := userId
    company := if truthy b.company then b.company else none
    website := if truthy b.website then b.website else none
    location := if truthy b.location then b.location else none
    bio := if truthy b.bio then b.bio else none
    status := if truthy b.status then b.status else none
    githubusername := if truthy b.githubusername then b.githubusername else none
    skills :=
      match b.skills with
      | none => none
      | some s => if truthy (some s) then some ((jsSplitOnComma s).map jsTrim) else none
    social :=
      { youtube := if truthy b.youtube then b.youtube else none
        twitter := if truthy b.twitter then b.twitter else none
        facebook := if truthy b.facebook then b.facebook else none
        linkedin := if truthy b.linkedin then b.linkedin else none
        instagram := if truthy b.instagram then b.instagram else none } }

/-- MongoDB `$set` semantics of
`findOneAndUpdate({user}, {$set: profileFields})`: a key present in the
update document overwrites the stored value, an absent key is untouched.
`social` is a key of every `profileFields` (see `buildProfileFields`), and
setting an embedded-document field replaces the embedded document whole. -/
def applySet (p : ProfileDoc) (f : ProfileFields) : ProfileDoc :=
  { p with
    user := f.user
    company := if f.company.isSome then f.company else p.company
    website := if f.website.isSome then f.website else p.website
    location := if f.location.isSome then f.location else p.location
    bio := if f.bio.isSome then f.bio else p.bio
    status := if f.status.isSome then f.status else p.status
    githubusername := if f.githubusername.isSome then f.githubusername else p.githubusername
    skills := if f.skills.isSome then f.skills else p.skills
    social := f.social }

/-- A fresh Profile document created from a `profileFields` object
(`new Profile(profileFields)` path of POST /profile). -/
def newProfileDoc (f : ProfileFields) : ProfileDoc :=
  { user := f.user, company := f.company, website := f.website,
    location := f.location, bio := f.bio, status := f.status,
    githubusername := f.githubusername, skills := f.skills,
    social := f.social, experience := [], education := [] }

/-- Success path of POST /profile (lines 92-109): if a Profile exists for
the caller it is updated with `$set: profileFields` and returned, otherwise
a new Profile is created from `profileFields`. -/
def createOrUpdateProfile (existing : Option ProfileDoc) (userId : String)
    (b : ProfileBody) : ProfileDoc :=
  let profileFields := buildProfileFields userId b
  match existing with
  | some p => applySet p profileFields
  | none => newProfileDoc profileFields

/- ### Experience and education routes (src/server/routes/profile.js) -/

/-- PUT /profile/experience success path (lines 219-226): the new entry is
added with `profile.experience.unshift(newExp)` and the updated profile is
saved and returned. -/
def addExperience (p : ProfileDoc) (e : Experience) : ProfileDoc :=
  { p with experience := jsUnshift p.experience e }

/-- PUT /profile/education success path (lines 296-303): the new entry is
added with `profile.education.unshift(newEdu)` and the updated profile is
saved and returned. -/
def addEducation (p : ProfileDoc) (e : Education) : ProfileDoc :=
  { p with education := jsUnshift p.education e }

/-- DELETE /profile/experience/:exp_id (lines 240-257): the remove index is
`profile.experience.map(item => item.id).indexOf(req.params.exp_id)` and
the handler then runs `profile.experience.splice(removeIndex, 1)`
unconditionally, even when the index is -1. -/
def deleteExperience (p : ProfileDoc) (expId : String) : ProfileDoc :=
  let removeIndex := jsIndexOf (p.experience.map Experience.id) expId
  { p with experience := jsSpliceDeleteOne p.experience removeIndex }

/-- DELETE /profile/education/:edu_id (lines 317-334): same shape as the
experience deletion, on the education sequence. -/
def deleteEducation (p : ProfileDoc) (eduId : String) : ProfileDoc :=
  let removeIndex := jsIndexOf (p.education.map Education.id) eduId
  { p with education := jsSpliceDeleteOne p.education removeIndex }

/- ### Validation-failure responses of the four validated routes -/

/-- Validation branch of POST /users (src/unnamed/part_000 lines 26-29):
`res.status(400).json({errors: errors.array()})` — the method IS called,
so the body carries the array of error objects. -/
def registerValidationResponse (errs : List ValidationError) : Response :=
  { status := 400, body := [("errors", .jarr (errs.map ValidationError.toJson))] }

/-- Validation branch of POST /profile (lines 51-54): also calls
`errors.array()`. -/
def createProfileValidationResponse (errs : List ValidationError) : Response :=
  { status := 400, body := [("errors", .jarr (errs.map ValidationError.toJson))] }

/-- Validation branch of PUT /profile/experience (lines 202-205): the
source passes `errors.array` WITHOUT calling it, so the value placed under
the key `errors` is a function reference, not an array. -/
def addExperienceValidationResponse (errs : List ValidationError) : Response :=
  let _ := errs
  { status := 400, body := [("errors", .jfun)] }

/-- Validation branch of PUT /profile/education (lines 276-280): likewise
passes the uncalled `errors.array`. -/
def addEducationValidationResponse (errs : List ValidationError) : Response :=
  let _ := errs
  { status := 400, body := [("errors", .jfun)] }

/-- Whether a response body, after JSON serialization, carries a key
`errors` whose value is an array of objects each having a `msg` field and a
`param` field (the structured field/message pairs of express-validator). -/
def hasStructuredErrorArray (r : Response) : Bool :=
  (stringifyTopObj r.body).any (fun f =>
    f.1 = "errors" &&
      match f.2 with
      | .jarr xs =>
        xs.all (fun v =>
          match v with
          | .jobj gs => gs.any (fun g => g.1 = "msg") && gs.any (fun g => g.1 = "param")
          | _ => false)
      | _ => false)

/- ### GET /profile/user/:user_id (lines 139-157) -/

/-- Hexadecimal digit test, for the MongoDB ObjectId format. -/
def isHexDigit (c : Char) : Bool :=
  c.isDigit || (c ≥ 'a' && c ≤ 'f') || (c ≥ 'A' && c ≤ 'F')

/-- Syntactic validity for the identifier format of the store: a MongoDB
ObjectId string is exactly 24 hexadecimal characters. -/
def isValidObjectId (s : String) : Bool :=
  s.length = 24 && s.toList.all isHexDigit

/-- Outcome of a Mongoose `findOne` keyed by a user id taken from the path:
an id that does not parse as an ObjectId makes the query throw a CastError
with `error.kind == "ObjectId"`; otherwise the first matching document is
returned, or none. -/
inductive FindOutcome (α : Type) where
  | found (a : α)
  | missing
  | castError
deriving Repr, DecidableEq

/-- The `Profile.findOne({user: req.params.user_id})` call of
GET /profile/user/:user_id against a stored list of profiles. -/
def findProfileByUserId (store : List ProfileDoc) (uid : String) :
    FindOutcome ProfileDoc :=
  if isValidObjectId uid then
    match store.find? (fun p => p.user = uid) with
    | some p => .found p
    | none => .missing
  else .castError

/-- The body `{msg: "Profile Not Found"}` returned on both the not-found
branch and the CastError branch of GET /profile/user/:user_id. -/
def profileNotFoundResponse : Response :=
  { status := 400, body := [("msg", .jstr "Profile Not Found")] }

/-- GET /profile/user/:user_id: 400 Profile Not Found when no profile
matches, 400 Profile Not Found when the id is syntactically invalid (the
catch block checks `error.kind === "ObjectId"`), 200 with the profile
otherwise. The profile body content is abstracted to the owning user id,
which is all the embedded claims inspect. -/
def getProfileByUserId (store : List ProfileDoc) (uid : String) : Response :=
  match findProfileByUserId store uid with
  | .found p => { status := 200, body := [("user", .jstr p.user)] }
  | .missing => profileNotFoundResponse
  | .castError => profileNotFoundResponse

/- ### bcrypt and JWT models (library calls used by src/unnamed/part_000
and src/server/middleware/auth.js) -/

/-- The value held by the `password` field of a User record: either the
plaintext it was constructed with (`new User({... password})`) or a bcrypt
digest. The digest is modelled as an idealized record of the work factor,
the random salt and the hashed input: distinct from every plaintext string
and collision-free, which is the contract of the bcrypt library. -/
inductive StoredPassword where
  | plain (p : String)
  | digest (cost : Nat) (salt : Nat) (input : String)
deriving Repr, DecidableEq

/-- Model of `bcrypt.hash(password, salt)` where the salt was produced by
`bcrypt.genSalt(cost)` with random value `salt`. -/
def bcryptHash (password : String) (cost : Nat) (salt : Nat) : StoredPassword :=
  .digest cost salt password

/-- Model of `bcrypt.compare(plain, stored)`: succeeds exactly when the
stored value is a digest of the submitted plaintext. -/
def bcryptCompare (p : String) (stored : StoredPassword) : Bool :=
  match stored with
  | .plain _ => false
  | .digest _ _ input => p = input

/-- JWT payload of this application: `{user: {id}}`, the user id being the
only application claim placed in the token. -/
structure JwtPayload where
  userId : String
deriving Repr, DecidableEq

/-- Idealized signature of a token: an unforgeable function of the signing
secret and the signed content (secret, payload and issue time). Two tokens
agree on the signature exactly when they agree on these inputs. -/
def jwtSignature (secret : String) (payload : JwtPayload) (iat : Nat) : String :=
  secret ++ "." ++ payload.userId ++ "." ++ toString iat

/-- A signed token: payload, issue time (seconds), lifetime (`expiresIn`
option, seconds) and signature. -/
structure SignedToken where
  payload : JwtPayload
  iat : Nat
  expiresIn : Nat
  sig : String
deriving Repr, DecidableEq

/-- Model of `jwt.sign(payload, secret, {expiresIn})` issued at time
`now`. -/
def jwtSign (payload : JwtPayload) (secret : String) (expiresIn : Nat)
    (now : Nat) : SignedToken :=
  { payload := payload, iat := now, expiresIn := expiresIn,
    sig := jwtSignature secret payload now }

/-- Model of `jwt.verify(token, secret)` evaluated at time `now`: the
signature must verify against `secret` and the token must not be expired;
on success the decoded payload is returned, on any failure the call
throws (`none`). -/
def jwtVerify (t : SignedToken) (secret : String) (now : Nat) :
    Option JwtPayload :=
  if t.sig = jwtSignature secret t.payload t.iat ∧ now < t.iat + t.expiresIn
  then some t.payload
  else none

/-- Result of the auth middleware: either the decoded `user` claim is
attached to the request (`req.user = decoded.user`) and the chain
continues, or a 401 response is sent. -/
inductive AuthOutcome where
  | proceed (user : JwtPayload)
  | reject (r : Response)
deriving Repr

/-- src/server/middleware/auth.js: read `x-auth-token`; absent token is a
401 with one message, failed verification a 401 with another. -/
def authMiddleware (secret : String) (now : Nat)
    (header : Option SignedToken) : AuthOutcome :=
  match header with
  | none =>
    .reject { status := 401, body := [("msg", .jstr "No token, authorization denied")] }
  | some t =>
    match jwtVerify t secret now with
    | some decoded => .proceed decoded
    | none =>
      .reject { status := 401, body := [("msg", .jstr "Token is not valid")] }

/- ### Registration handler (src/unnamed/part_000) -/

/-- A persisted User record. -/
structure User where
  id : String
  name : String
  email : String
  avatar : String
  password : StoredPassword
deriving Repr, DecidableEq

/-- Body of a POST /users registration request. -/
structure RegisterRequest where
  name : String
  email : String
  password : String
deriving Repr, DecidableEq

/-- Model of the gravatar URL derivation: a fixed deterministic function of
the email with the handler's fixed options s=200, r=pg, d=mm. -/
def gravatarUrl (email : String) : String :=
  "gravatar(" ++ email ++ ")?s=200&r=pg&d=mm"

/-- Abstraction of the express-validator `isEmail` test; the embedded
claims never depend on its exact boundary, only on whether validation
passed. -/
def isEmailLike (s : String) : Bool :=
  s.toList.contains '@'

/-- The validation chain of POST /users: name non-empty, email well formed,
password of length at least 6, each failure contributing its configured
field/message pair. -/
def registerValidationErrors (r : RegisterRequest) : List ValidationError :=
  (if r.name = "" then [{ msg := "Name is required", param := "name" }] else []) ++
  (if isEmailLike r.email then []
   else [{ msg := "please include valid email", param := "email" }]) ++
  (if r.password.length ≥ 6 then []
   else [{ msg := "please enter a password with 6 or more charaters", param := "password" }])

/-- The 400 response of the duplicate-email branch of POST /users. -/
def userExistsResponse : Response :=
  { status := 400,
    body := [("errors", .jarr [.jobj [("msg", .jstr "User already exists")]])] }

/-- Outcome of the registration handler. -/
inductive RegisterOutcome where
  | validationFailed (r : Response)
  | conflict (r : Response)
  | success (token : SignedToken)
deriving Repr

/-- POST /users (src/unnamed/part_000 lines 25-77): validation first; then
the duplicate-email lookup (`User.findOne({email})`), answered with
400 `{errors: [{msg: "User already exists"}]}` and no write; otherwise the
User is built with the gravatar avatar and the plaintext password, the
password field is overwritten with the bcrypt digest (work factor 10,
random salt `salt`) before `user.save()`, and a token over `{user: {id}}`
with `expiresIn: 360000` is returned. `newId` is the store-assigned id,
`salt` the random salt, `now` the issue time, `secret` the process-wide
`jwtSecret`. Returns the outcome and the store after the request. -/
def registerHandler (store : List User) (r : RegisterRequest) (newId : String)
    (salt : Nat) (secret : String) (now : Nat) :
    RegisterOutcome × List User :=
  let errs := registerValidationErrors r
  if errs ≠ [] then
    (.validationFailed (registerValidationResponse errs), store)
  else if (store.find? (fun u => u.email = r.email)).isSome then
    (.conflict userExistsResponse, store)
  else
    let user : User :=
      { id := newId, name := r.name, email := r.email,
        avatar := gravatarUrl r.email, password := .plain r.password }
    let user := { user with password := bcryptHash r.password 10 salt }
    let token := jwtSign { userId := user.id } secret 360000 now
    (.success token, store ++ [user])

/- ### DELETE /profile (delete account, lines 165-184) -/

/-- A post record, standing for the other user content that the
delete-account handler does NOT touch (the source carries a Todo comment
about removing posts). -/
structure Post where
  user : String
  text : String
deriving Repr, DecidableEq

/-- The whole persisted store as seen by the profile routes. -/
structure Store where
  users : List User
  profiles : List ProfileDoc
  posts : List Post
deriving Repr, DecidableEq

/-- DELETE /profile: `Profile.findOneAndRemove({user})` then
`User.findOneAndRemove({_id})`, each a no-op when no document matches, then
`res.json({msg: "User Deleted"})` (status 200 by default). -/
def deleteAccountHandler (store : Store) (uid : String) : Response × Store :=
  let store := { store with profiles := removeFirst (fun p => p.user = uid) store.profiles }
  let store := { store with users := removeFirst (fun u => u.id = uid) store.users }
  ({ status := 200, body := [("msg", .jstr "User Deleted")] }, store)

/-- Discriminator for the conflict outcome of the registration handler. -/
def RegisterOutcome.isConflict : RegisterOutcome → Bool
  | .conflict _ => true
  | _ => false

/- ### Concrete fixtures used by counterexamples and witnesses -/

/-- A first experience entry, sub-entity id e1. -/
def expA : Experience :=
  { id := "e1", title := "Dev", company := "Acme", location := none,
    fromDate := some "2019-01-01", toDate := none, current := some false,
    description := none }

/-- A second experience entry, sub-entity id e2. -/
def expB : Experience :=
  { id := "e2", title := "Eng", company := "Beta", location := none,
    fromDate := some "2020-01-01", toDate := none, current := some true,
    description := none }

/-- A first education entry, sub-entity id d1. -/
def eduA : Education :=
  { id := "d1", school := "MIT", degree := "BSc", fieldOfStudy := some "CS",
    fromDate := some "2015", toDate := none, current := some false,
    description := none }

/-- A second education entry, sub-entity id d2. -/
def eduB : Education :=
  { id := "d2", school := "CMU", degree := "MSc", fieldOfStudy := some "CS",
    fromDate := some "2019", toDate := none, current := some true,
    description := none }

/-- A profile of user u1 with two experience and two education entries. -/
def profTwo : ProfileDoc :=
  { user := "u1", company := none, website := none, location := none,
    bio := none, status := some "dev", githubusername := none, skills := none,
    social := Social.empty, experience := [expA, expB],
    education := [eduA, eduB] }

/-- The single validation error of an add-experience request with a missing
title. -/
def titleMissingErrs : List ValidationError :=
  [{ msg := "title is required", param := "title" }]

/-- The single validation error of an add-education request with a missing
school. -/
def schoolMissingErrs : List ValidationError :=
  [{ msg := "school is required", param := "school" }]

/- ### Claims -/

/-- C1: the experience/education deletion handlers run
`splice(removeIndex, 1)` without guarding against `indexOf` returning -1,
and JavaScript `splice(-1, 1)` removes the LAST element. On a profile with
entries e1, e2 (resp. d1, d2), deleting the non-existent id z removes e2
(resp. d2) instead of leaving the sequence unchanged, contradicting the
claim; deleting an id that does match removes exactly that entry and keeps
the rest in order. -/
theorem c1_delete_missing_id_removes_last_entry :
    jsIndexOf (profTwo.experience.map Experience.id) "z" = -1 ∧
    (deleteExperience profTwo "z").experience = [expA] ∧
    jsIndexOf (profTwo.education.map Education.id) "z" = -1 ∧
    (deleteEducation profTwo "z").education = [eduA] ∧
    (deleteExperience profTwo "e1").experience = [expB] ∧
    (deleteEducation profTwo "d2").education = [eduA] := by
  decide

/-- C2: on the two validated sub-entity routes the validation branch passes
the UNCALLED method reference `errors.array` to `res.json`, so after JSON
serialization the 400 response body carries no errors array at all, while
the registration and create-profile routes (which call `errors.array()`)
do return the structured field/message array. This refutes the claim for
the add-experience and add-education routes. -/
theorem c2_experience_validation_body_lacks_error_array :
    (addExperienceValidationResponse titleMissingErrs).status = 400 ∧
    stringifyTopObj (addExperienceValidationResponse titleMissingErrs).body = [] ∧
    hasStructuredErrorArray (addExperienceValidationResponse titleMissingErrs) = false ∧
    hasStructuredErrorArray (addEducationValidationResponse schoolMissingErrs) = false ∧
    hasStructuredErrorArray (registerValidationResponse titleMissingErrs) = true ∧
    hasStructuredErrorArray (createProfileValidationResponse titleMissingErrs) = true := by
  constructor
  · rfl
  constructor
  · rfl
  constructor
  · rfl
  constructor
  · rfl
  constructor
  · rfl
  · rfl

/-- C7: adding an experience (resp. education) entry places it at index 0,
shifts every prior entry up by one position preserving relative order, and
leaves the other sequence untouched; the handler saves and returns this
updated profile. -/
theorem c7_add_entry_inserts_at_front (p : ProfileDoc) (e : Experience)
    (d : Education) :
    (addExperience p e).experience = e :: p.experience ∧
    (addExperience p e).experience.get? 0 = some e ∧
    (∀ i : Nat, (addExperience p e).experience.get? (i + 1) = p.experience.get? i) ∧
    (addExperience p e).education = p.education ∧
    (addEducation p d).education = d :: p.education ∧
    (addEducation p d).education.get? 0 = some d ∧
    (∀ i : Nat, (addEducation p d).education.get? (i + 1) = p.education.get? i) ∧
    (addEducation p d).experience = p.experience := by
  refine ⟨rfl, rfl, fun i => ?_, rfl, rfl, rfl, fun i => ?_, rfl⟩ <;>
    simp [addExperience, addEducation, jsUnshift]

/-- C8: fetching a profile by user id answers 400 Profile Not Found both
when the id is syntactically invalid for the ObjectId format (the CastError
branch) and when the id is well formed but no profile matches; neither case
is a 500. -/
theorem c8_fetch_by_invalid_or_unknown_id_is_400_not_found
    (store : List ProfileDoc) (uid : String)
    (h : isValidObjectId uid = false ∨ store.find? (fun p => p.user = uid) = none) :
    getProfileByUserId store uid = profileNotFoundResponse ∧
    profileNotFoundResponse.status = 400 := by
  refine ⟨?_, rfl⟩
  unfold getProfileByUserId findProfileByUserId
  rcases h with h | h
  · simp [h]
  · cases hv : isValidObjectId uid <;> simp [h]

/-- Witness for C8: a syntactically invalid id and a well-formed unknown id
both answer the 400 Profile Not Found response on an empty store. -/
theorem c8_witness :
    getProfileByUserId [] "not-an-objectid" = profileNotFoundResponse ∧
    getProfileByUserId [] "0123456789abcdef01234567" = profileNotFoundResponse :=
  ⟨(c8_fetch_by_invalid_or_unknown_id_is_400_not_found [] "not-an-objectid"
      (Or.inl (by decide))).1,
   (c8_fetch_by_invalid_or_unknown_id_is_400_not_found [] "0123456789abcdef01234567"
      (Or.inr rfl)).1⟩

/-- C9: whenever the request supplies a skills string, the stored skills
value is the comma-split, piecewise-trimmed, order-preserving sequence
(absent entirely when the supplied string is falsy, i.e. empty). -/
theorem c9_skills_split_and_trimmed (uid : String) (b : ProfileBody)
    (s : String) (h : b.skills = some s) :
    (buildProfileFields uid b).skills =
      if truthy (some s) then some ((jsSplitOnComma s).map jsTrim) else none := by
  simp [buildProfileFields, h]

/-- Witness for C9: the input node, react , css is stored as the trimmed
sequence node, react, css in that order. -/
theorem c9_witness :
    (buildProfileFields "u1"
        { ProfileBody.empty with skills := some "node, react , css" }).skills =
      some ["node", "react", "css"] := by
  rw [c9_skills_split_and_trimmed "u1"
    { ProfileBody.empty with skills := some "node, react , css" }
    "node, react , css" rfl]
  decide

/-- A profile of user u1 with a youtube link and some top-level fields set,
used to exhibit the social-wipe behaviour of the update path. -/
def p0 : ProfileDoc :=
  { user := "u1", company := some "Acme", website := none, location := none,
    bio := none, status := some "dev", githubusername := none,
    skills := some ["js"],
    social := { Social.empty with youtube := some "yt.example/u1" },
    experience := [], education := [] }

/-- A partial update request supplying only status and skills. -/
def partialBody : ProfileBody :=
  { ProfileBody.empty with status := some "student", skills := some "go" }

/-- C3 counterexample: user u1 has a profile whose social sub-record holds
a youtube link; an update supplying only status and skills (and no social
link) ends with the youtube link REMOVED, because `profileFields.social` is
always built and `$set` replaces the embedded social document whole. This
refutes the claim that every previously set social link keeps its prior
value. -/
theorem c3_counterexample_partial_update_wipes_social :
    p0.social.youtube = some "yt.example/u1" ∧
    partialBody.youtube = none ∧
    (createOrUpdateProfile (some p0) "u1" partialBody).social.youtube = none := by
  decide

/-- C3 amended: on an update of an existing profile, every top-level field
whose request value is not truthy keeps its prior value (and the entry
sequences are untouched), but the social sub-record is replaced wholesale
by exactly the supplied links: a social link absent from the request ends
unset, even if previously stored. -/
theorem c3_amended_partial_update (p : ProfileDoc) (uid : String)
    (b : ProfileBody) :
    (truthy b.company = false →
      (createOrUpdateProfile (some p) uid b).company = p.company) ∧
    (truthy b.website = false →
      (createOrUpdateProfile (some p) uid b).website = p.website) ∧
    (truthy b.location = false →
      (createOrUpdateProfile (some p) uid b).location = p.location) ∧
    (truthy b.bio = false →
      (createOrUpdateProfile (some p) uid b).bio = p.bio) ∧
    (truthy b.status = false →
      (createOrUpdateProfile (some p) uid b).status = p.status) ∧
    (truthy b.githubusername = false →
      (createOrUpdateProfile (some p) uid b).githubusername = p.githubusername) ∧
    (truthy b.skills = false →
      (createOrUpdateProfile (some p) uid b).skills = p.skills) ∧
    (createOrUpdateProfile (some p) uid b).social =
      { youtube := if truthy b.youtube then b.youtube else none,
        twitter := if truthy b.twitter then b.twitter else none,
        facebook := if truthy b.facebook then b.facebook else none,
        linkedin := if truthy b.linkedin then b.linkedin else none,
        instagram := if truthy b.instagram then b.instagram else none } ∧
    (createOrUpdateProfile (some p) uid b).experience = p.experience ∧
    (createOrUpdateProfile (some p) uid b).education = p.education := by
  refine ⟨?_, ?_, ?_, ?_, ?_, ?_, ?_, rfl, rfl, rfl⟩
  all_goals intro h
  case _ => simp [createOrUpdateProfile, applySet, buildProfileFields, h]
  case _ => simp [createOrUpdateProfile, applySet, buildProfileFields, h]
  case _ => simp [createOrUpdateProfile, applySet, buildProfileFields, h]
  case _ => simp [createOrUpdateProfile, applySet, buildProfileFields, h]
  case _ => simp [createOrUpdateProfile, applySet, buildProfileFields, h]
  case _ => simp [createOrUpdateProfile, applySet, buildProfileFields, h]
  case _ =>
    cases hb : b.skills with
    | none => simp [createOrUpdateProfile, applySet, buildProfileFields, hb]
    | some s =>
      rw [hb] at h
      simp [createOrUpdateProfile, applySet, buildProfileFields, hb, h]

/-- Witness for the amended C3: at the concrete profile and the concrete
partial update above, the stored company survives and the social sub-record
ends fully unset. -/
theorem c3_amended_witness :
    (createOrUpdateProfile (some p0) "u1" partialBody).company = p0.company ∧
    (createOrUpdateProfile (some p0) "u1" partialBody).social =
      { youtube := none, twitter := none, facebook := none,
        linkedin := none, instagram := none } := by
  refine ⟨(c3_amended_partial_update p0 "u1" partialBody).1 (by decide), ?_⟩
  have h := (c3_amended_partial_update p0 "u1" partialBody).2.2.2.2.2.2.2.1
  rw [h]
  decide

/-- Helper: removing the first match leaves the list unchanged when no
element matches. -/
theorem removeFirst_eq_of_no_match {α : Type} (p : α → Bool) (xs : List α)
    (h : ∀ a ∈ xs, p a = false) : removeFirst p xs = xs := by
  induction xs with
  | nil => rfl
  | cons a rest ih =>
    have ha : p a = false := h a (List.mem_cons_self a rest)
    have hr := ih (fun b hb => h b (List.mem_cons_of_mem a hb))
    simp [removeFirst, ha, hr]

/-- C10: the delete-account handler always answers 200 with the message
User Deleted, touches only the profiles and users collections (posts are
untouched), removes at most the one matching profile and the one matching
user, and each removal is a no-op when its target document is missing. -/
theorem c10_delete_account (store : Store) (uid : String) :
    (deleteAccountHandler store uid).1.status = 200 ∧
    (deleteAccountHandler store uid).1.body = [("msg", JSValue.jstr "User Deleted")] ∧
    (deleteAccountHandler store uid).2.posts = store.posts ∧
    (deleteAccountHandler store uid).2.profiles =
      removeFirst (fun p => p.user = uid) store.profiles ∧
    (deleteAccountHandler store uid).2.users =
      removeFirst (fun u => u.id = uid) store.users ∧
    ((∀ q ∈ store.profiles, q.user ≠ uid) →
      (deleteAccountHandler store uid).2.profiles = store.profiles) ∧
    ((∀ u ∈ store.users, u.id ≠ uid) →
      (deleteAccountHandler store uid).2.users = store.users) := by
  refine ⟨rfl, rfl, rfl, rfl, rfl, ?_, ?_⟩
  · intro h
    exact removeFirst_eq_of_no_match _ _ (fun a ha => by simp [h a ha])
  · intro h
    exact removeFirst_eq_of_no_match _ _ (fun a ha => by simp [h a ha])

/-- A stray post of user u1 that no handler may touch. -/
def postX : Post := { user := "u1", text := "hello" }

/-- A persisted user record for Bob. -/
def userB : User :=
  { id := "u2", name := "Bob", email := "b@c.d", avatar := gravatarUrl "b@c.d",
    password := .digest 10 7 "abcdef" }

/-- A store with one user, one profile and one post. -/
def storeC10 : Store := { users := [userB], profiles := [profTwo], posts := [postX] }

/-- Witness for C10: deleting the account of an id matching no profile and
no user answers 200 and leaves every collection unchanged. -/
theorem c10_witness :
    (deleteAccountHandler storeC10 "u9").1.status = 200 ∧
    (deleteAccountHandler storeC10 "u9").2.profiles = storeC10.profiles ∧
    (deleteAccountHandler storeC10 "u9").2.users = storeC10.users ∧
    (deleteAccountHandler storeC10 "u9").2.posts = storeC10.posts :=
  ⟨(c10_delete_account storeC10 "u9").1,
   (c10_delete_account storeC10 "u9").2.2.2.2.2.1 (by decide),
   (c10_delete_account storeC10 "u9").2.2.2.2.2.2 (by decide),
   (c10_delete_account storeC10 "u9").2.2.1⟩

/-- A valid registration request for Ann. -/
def regAnn : RegisterRequest :=
  { name := "Ann", email := "a@b.c", password := "abcdef" }

/-- The user record already persisted with the email of `regAnn`. -/
def uExisting : User :=
  { id := "u1", name := "Ann", email := "a@b.c", avatar := gravatarUrl "a@b.c",
    password := .digest 10 7 "abcdef" }

/-- A duplicate-email registration request that also fails validation
(empty name). -/
def regDupBadName : RegisterRequest :=
  { name := "", email := "a@b.c", password := "abcdef" }

/-- A duplicate-email registration request that passes validation. -/
def regDupValid : RegisterRequest :=
  { name := "Bob", email := "a@b.c", password := "ghijkl" }

/-- A token whose signature does not verify against the secret s. -/
def badToken : SignedToken :=
  { payload := { userId := "u1" }, iat := 0, expiresIn := 360000, sig := "forged" }

/-- C4: a successful registration returns exactly the token signed with the
process secret over the payload holding only the new user id, with the
fixed lifetime 360000 seconds = 100 hours; the auth middleware, given that
token within its window, proceeds with the same user id; and any token
whose signature fails verification against the same secret is rejected
with the 401 Token is not valid response. -/
theorem c4_token_roundtrip (store : List User) (r : RegisterRequest)
    (newId : String) (salt : Nat) (secret : String) (now t : Nat)
    (tok : SignedToken)
    (hreg : (registerHandler store r newId salt secret now).1 = .success tok) :
    tok = jwtSign { userId := newId } secret 360000 now ∧
    tok.expiresIn = 360000 ∧
    360000 = 100 * 60 * 60 ∧
    (t < now + 360000 →
      authMiddleware secret t (some tok) = .proceed { userId := newId }) ∧
    (∀ bad : SignedToken, bad.sig ≠ jwtSignature secret bad.payload bad.iat →
      authMiddleware secret t (some bad) =
        .reject { status := 401, body := [("msg", JSValue.jstr "Token is not valid")] }) := by
  by_cases h1 : registerValidationErrors r = []
  · by_cases h2 : (store.find? (fun u => u.email = r.email)).isSome
    · simp [registerHandler, h1, h2] at hreg
    · simp [registerHandler, h1, h2] at hreg
      refine ⟨hreg.symm, ?_, rfl, ?_, ?_⟩
      · rw [← hreg]; rfl
      · intro hwin
        rw [← hreg]
        simp [authMiddleware, jwtVerify, jwtSign, hwin]
      · intro bad hbad
        simp [authMiddleware, jwtVerify, hbad]
  · simp [registerHandler, h1] at hreg

/-- Witness for C4: the token of a concrete successful registration is
accepted by the middleware at time 5 and resolves to the registered id u1,
while a forged-signature token is rejected with 401 Token is not valid. -/
theorem c4_witness :
    authMiddleware "s" 5 (some (jwtSign { userId := "u1" } "s" 360000 0)) =
      .proceed { userId := "u1" } ∧
    authMiddleware "s" 5 (some badToken) =
      .reject { status := 401, body := [("msg", JSValue.jstr "Token is not valid")] } :=
  ⟨(c4_token_roundtrip [] regAnn "u1" 7 "s" 0 5
      (jwtSign { userId := "u1" } "s" 360000 0) rfl).2.2.2.1 (by decide),
   (c4_token_roundtrip [] regAnn "u1" 7 "s" 0 5
      (jwtSign { userId := "u1" } "s" 360000 0) rfl).2.2.2.2 badToken (by decide)⟩

/-- The user record persisted by the success path of the registration
handler: gravatar-derived avatar and bcrypt-digest password. -/
def savedUser (r : RegisterRequest) (newId : String) (salt : Nat) : User :=
  { id := newId, name := r.name, email := r.email,
    avatar := gravatarUrl r.email, password := bcryptHash r.password 10 salt }

/-- C5: a successful registration appends exactly one user record, whose
password field holds the bcrypt digest with work factor 10 of the submitted
password, is different from the plaintext, and verifies against the
plaintext. -/
theorem c5_password_stored_hashed (store : List User) (r : RegisterRequest)
    (newId : String) (salt : Nat) (secret : String) (now : Nat)
    (tok : SignedToken)
    (hreg : (registerHandler store r newId salt secret now).1 = .success tok) :
    ∃ u : User,
      (registerHandler store r newId salt secret now).2 = store ++ [u] ∧
      u.id = newId ∧
      u.password = bcryptHash r.password 10 salt ∧
      u.password ≠ StoredPassword.plain r.password ∧
      bcryptCompare r.password u.password = true := by
  by_cases h1 : registerValidationErrors r = []
  · by_cases h2 : (store.find? (fun u => u.email = r.email)).isSome
    · simp [registerHandler, h1, h2] at hreg
    · refine ⟨savedUser r newId salt, ?_, rfl, rfl, ?_, ?_⟩
      · simp [registerHandler, h1, h2, savedUser, bcryptHash]
      · simp [savedUser, bcryptHash]
      · simp [savedUser, bcryptCompare, bcryptHash]
  · simp [registerHandler, h1] at hreg

/-- Witness for C5: the concrete registration of Ann persists one record
whose password is the digest of abcdef and verifies against abcdef. -/
theorem c5_witness :
    ∃ u : User,
      (registerHandler [] regAnn "u1" 7 "s" 0).2 = [] ++ [u] ∧
      u.id = "u1" ∧
      u.password = bcryptHash regAnn.password 10 7 ∧
      u.password ≠ StoredPassword.plain regAnn.password ∧
      bcryptCompare regAnn.password u.password = true :=
  c5_password_stored_hashed [] regAnn "u1" 7 "s" 0
    (jwtSign { userId := "u1" } "s" 360000 0) rfl

/-- C6 counterexample: a registration request with the email of an existing
user but an empty name is answered by the validation branch, NOT by the
conflict branch, so the claim does not hold of every duplicate-email
request; the store is still unchanged. -/
theorem c6_counterexample_invalid_duplicate_not_conflict :
    uExisting.email = regDupBadName.email ∧
    RegisterOutcome.isConflict
      (registerHandler [uExisting] regDupBadName "u2" 7 "s" 0).1 = false ∧
    (registerHandler [uExisting] regDupBadName "u2" 7 "s" 0).2 = [uExisting] := by
  decide

/-- C6 amended: a duplicate-email registration request never changes the
store, and when it additionally passes input validation it is answered by
the 400 User already exists conflict response. -/
theorem c6_amended_duplicate_email (store : List User) (r : RegisterRequest)
    (newId : String) (salt : Nat) (secret : String) (now : Nat)
    (hdup : (store.find? (fun u => u.email = r.email)).isSome = true) :
    (registerValidationErrors r = [] →
      (registerHandler store r newId salt secret now).1 = .conflict userExistsResponse) ∧
    (registerHandler store r newId salt secret now).2 = store := by
  constructor
  · intro hv
    simp [registerHandler, hv, hdup]
  · by_cases hv : registerValidationErrors r = []
    · simp [registerHandler, hv, hdup]
    · simp [registerHandler, hv]

/-- Witness for the amended C6: the concrete valid duplicate registration
of Bob with the email of the existing user yields the conflict response and
leaves the store unchanged. -/
theorem c6_witness :
    (registerHandler [uExisting] regDupValid "u2" 7 "s" 0).1 = .conflict userExistsResponse ∧
    (registerHandler [uExisting] regDupValid "u2" 7 "s" 0).2 = [uExisting] :=
  ⟨(c6_amended_duplicate_email [uExisting] regDupValid "u2" 7 "s" 0 (by decide)).1 (by decide),
   (c6_amended_duplicate_email [uExisting] regDupValid "u2" 7 "s" 0 (by decide)).2⟩

end Mern
